import Mathlib

/-!
Verification of the registry hive header analysis-and-repair engine:
a shallow embedding of src/registry.rs, src/main.rs and the fix
orchestration of src/gui.rs, with proofs about the checksum engine,
the validator battery, and the fix-application pipeline.

Machine integers are modelled as Nat with explicit reduction mod 2^32
where the Rust code performs u32 arithmetic (release-profile wrapping
semantics); a file is a list of byte values; the fallible analysis
returns Except, keeping out-of-bounds slice panics distinct from UTF-8
signature decode failures.
-/

set_option maxRecDepth 100000
set_option maxHeartbeats 2000000

namespace RegFix

/-- Severity of a validation issue (types.rs, IssueSeverity). -/
inductive IssueSeverity where
  | Critical
  | Warning
deriving DecidableEq

/-- The closed set of remediable field classes (types.rs, FixType). -/
inductive FixType where
  | HiveBinsSize
  | Checksum
  | SequenceNumbers
deriving DecidableEq

/-- The concrete replacement values for a fix (types.rs, FixData). -/
inductive FixData where
  | HiveBinsSize (v : Nat)
  | Checksum (v : Nat)
  | SequenceNumbers (p s : Nat)
deriving DecidableEq

/-- One detected deviation (types.rs, ValidationIssue). -/
structure ValidationIssue where
  severity : IssueSeverity
  message : String
  details : Option String
  fix_type : Option FixType
  fix_data : Option FixData
deriving DecidableEq

/-- Snapshot of all parsed and derived header fields (types.rs, FileInfo). -/
structure FileInfo where
  path : String
  size : Nat
  signature : String
  primary_seq_num : Nat
  secondary_seq_num : Nat
  last_written : Nat
  major_version : Nat
  minor_version : Nat
  file_type : Nat
  file_format : Nat
  root_cell_offset : Nat
  hive_bins_size : Nat
  measured_hive_bins_size : Nat
  clustering_factor : Nat
  stored_checksum : Nat
  calculated_checksum : Nat
deriving DecidableEq

/-- The artifact returned by analysis (types.rs, AnalysisResult). -/
structure AnalysisResult where
  issues : List ValidationIssue
  file_info : FileInfo
deriving DecidableEq

/-- How an analysis run aborts.  IndexPanic models a Rust out-of-bounds
slice panic (and, for an empty file, the failing mmap call): an abort
that is not a parse error.  ParseError models the Err propagated by the
question-mark operator on std str from_utf8. -/
inductive CheckError where
  | IndexPanic
  | ParseError
deriving DecidableEq

instance {ε α : Type} [DecidableEq ε] [DecidableEq α] : DecidableEq (Except ε α) :=
  fun a b =>
    match a, b with
    | Except.error e, Except.error f =>
        if h : e = f then isTrue (by rw [h]) else isFalse (by intro hc; cases hc; exact h rfl)
    | Except.error _, Except.ok _ => isFalse (by intro hc; cases hc)
    | Except.ok _, Except.error _ => isFalse (by intro hc; cases hc)
    | Except.ok x, Except.ok y =>
        if h : x = y then isTrue (by rw [h]) else isFalse (by intro hc; cases hc; exact h rfl)

/-- Byte i of a buffer; 0 past the end (in-bounds uses are guarded by
explicit length tests mirroring the slice bounds in the source). -/
def byteAt (d : List Nat) (i : Nat) : Nat := d.getD i 0

/-- u32 little-endian read at a byte offset (u32 from_le_bytes). -/
def readU32 (d : List Nat) (off : Nat) : Nat :=
  byteAt d off + 256 * byteAt d (off + 1) + 65536 * byteAt d (off + 2) +
    16777216 * byteAt d (off + 3)

/-- u64 little-endian read at a byte offset (u64 from_le_bytes). -/
def readU64 (d : List Nat) (off : Nat) : Nat :=
  byteAt d off + 256 * byteAt d (off + 1) + 65536 * byteAt d (off + 2) +
    16777216 * byteAt d (off + 3) + 4294967296 * byteAt d (off + 4) +
    1099511627776 * byteAt d (off + 5) + 281474976710656 * byteAt d (off + 6) +
    72057594037927936 * byteAt d (off + 7)

/-- Wrapping u32 subtraction (release-profile `a - b` on u32). -/
def sub32 (a b : Nat) : Nat := (a + 4294967296 - b % 4294967296) % 4294967296

/-- Wrapping u32 addition (release-profile `a + b` on u32). -/
def add32 (a b : Nat) : Nat := (a + b) % 4294967296

/-- The four little-endian bytes of a u32 value (to_le_bytes). -/
def le32 (v : Nat) : List Nat :=
  [v % 256, v / 256 % 256, v / 65536 % 256, v / 16777216 % 256]

/-- Overwrite bytes of a file starting at a given offset, zero-filling
any gap (seek plus write_all semantics of the OS file API). -/
def writeAt (d : List Nat) (off : Nat) (v : List Nat) : List Nat :=
  d.take off ++ List.replicate (off - d.length) 0 ++ v ++ d.drop (off + v.length)

/-- Raw running XOR of the 127 32-bit little-endian words in byte range
[0, 508), exactly as the loop `for i in (0..508).step_by(4)` visits them
(registry.rs lines 12-16). -/
def checksumRaw (d : List Nat) : Nat :=
  (List.range 127).foldl (fun acc j => Nat.xor acc (readU32 d (4 * j))) 0

/-- Header checksum with the two reserved-value substitutions
(registry.rs, calculate_header_checksum; identical copy in main.rs). -/
def calculate_header_checksum (d : List Nat) : Nat :=
  if checksumRaw d = 4294967295 then 4294967294
  else if checksumRaw d = 0 then 1
  else checksumRaw d

/-- Restatement of the checksum from the specification text: the XOR of
the 127 32-bit little-endian words at byte offsets 0, 4, ..., 504,
post-processed so that a raw XOR of 0xFFFFFFFF becomes 0xFFFFFFFE and a
raw XOR of 0 becomes 1, every other raw value returned unchanged. -/
def specRawXor (d : List Nat) : Nat :=
  ((List.range 127).map (fun j => readU32 d (4 * j))).foldr Nat.xor 0

def specHeaderChecksum (d : List Nat) : Nat :=
  if specRawXor d = 4294967295 then 4294967294
  else if specRawXor d = 0 then 1
  else specRawXor d

/-- Whether a byte is a UTF-8 continuation byte (10xxxxxx). -/
def utf8Cont (b : Nat) : Bool := decide (128 ≤ b ∧ b < 192)

/-- UTF-8 decoding of a byte list, mirroring std str from_utf8: rejects
continuation-byte leads, overlong encodings, surrogate code points and
values above 0x10FFFF; returns the decoded characters otherwise. -/
def utf8DecodeBytes : List Nat → Option (List Char)
  | [] => some []
  | b0 :: rest =>
    if b0 < 128 then
      (utf8DecodeBytes rest).map (fun cs => Char.ofNat b0 :: cs)
    else if b0 < 194 then none
    else if b0 < 224 then
      match rest with
      | b1 :: rest2 =>
        if utf8Cont b1 then
          (utf8DecodeBytes rest2).map
            (fun cs => Char.ofNat ((b0 - 192) * 64 + (b1 - 128)) :: cs)
        else none
      | [] => none
    else if b0 < 240 then
      match rest with
      | b1 :: b2 :: rest3 =>
        let okB1 : Bool :=
          if b0 = 224 then decide (160 ≤ b1 ∧ b1 < 192)
          else if b0 = 237 then decide (128 ≤ b1 ∧ b1 < 160)
          else utf8Cont b1
        if okB1 && utf8Cont b2 then
          (utf8DecodeBytes rest3).map
            (fun cs => Char.ofNat ((b0 - 224) * 4096 + (b1 - 128) * 64 + (b2 - 128)) :: cs)
        else none
      | _ => none
    else if b0 < 245 then
      match rest with
      | b1 :: b2 :: b3 :: rest4 =>
        let okB1 : Bool :=
          if b0 = 240 then decide (144 ≤ b1 ∧ b1 < 192)
          else if b0 = 244 then decide (128 ≤ b1 ∧ b1 < 144)
          else utf8Cont b1
        if okB1 && utf8Cont b2 && utf8Cont b3 then
          (utf8DecodeBytes rest4).map
            (fun cs => Char.ofNat ((b0 - 240) * 262144 + (b1 - 128) * 4096 +
              (b2 - 128) * 64 + (b3 - 128)) :: cs)
        else none
      | _ => none
    else none

/-- Uppercase hexadecimal digit character for a value below 16. -/
def hexDigitChar (n : Nat) : Char :=
  if n < 10 then Char.ofNat (48 + n) else Char.ofNat (55 + n)

/-- Fixed-width zero-padded uppercase hexadecimal digits. -/
def hexPad : Nat → Nat → List Char
  | 0, _ => []
  | w + 1, n => hexPad w (n / 16) ++ [hexDigitChar (n % 16)]

/-- Rust style 08X formatting of a u32 value. -/
def hex8 (n : Nat) : String := String.mk (hexPad 8 n)

/-- Rust style 016X formatting of a u64 value. -/
def hex16 (n : Nat) : String := String.mk (hexPad 16 n)

/-- Minimal-width uppercase hexadecimal digits, fuel-driven structural
recursion (the fuel n itself always suffices since n / 16 < n). -/
def hexCharsAux : Nat → Nat → List Char
  | 0, n => [hexDigitChar (n % 16)]
  | fuel + 1, n =>
      if n < 16 then [hexDigitChar n]
      else hexCharsAux fuel (n / 16) ++ [hexDigitChar (n % 16)]

/-- Minimal-width uppercase hexadecimal digits (Rust style X formatting). -/
def hexChars (n : Nat) : List Char := hexCharsAux n n

/-- Minimal-width uppercase hexadecimal string. -/
def hexU (n : Nat) : String := String.mk (hexChars n)

/-- The signature issue record (registry.rs lines 100-106; identical in
main.rs). -/
def signatureIssue (s : String) : ValidationIssue :=
  { severity := IssueSeverity.Critical
    message := "Invalid signature: expected \x27regf\x27, found \x27" ++ s ++ "\x27"
    details := some "The registry file signature is invalid, indicating severe corruption"
    fix_type := none
    fix_data := none }

/-- The checksum mismatch issue record (registry.rs lines 111-120). -/
def checksumIssue (stored cks : Nat) : ValidationIssue :=
  { severity := IssueSeverity.Critical
    message := "Header checksum mismatch"
    details := some ("Stored: 0x" ++ hex8 stored ++ ", Calculated: 0x" ++ hex8 cks)
    fix_type := some FixType.Checksum
    fix_data := some (FixData.Checksum cks) }

/-- The hive-bins-size mismatch issue record (registry.rs lines 125-134). -/
def hiveBinsIssue (stored measured : Nat) : ValidationIssue :=
  { severity := IssueSeverity.Warning
    message := "Hive bins size mismatch"
    details := some ("Stored: " ++ toString stored ++ " bytes, Measured: " ++
      toString measured ++ " bytes")
    fix_type := some FixType.HiveBinsSize
    fix_data := some (FixData.HiveBinsSize measured) }

/-- The sequence-number mismatch issue record (registry.rs lines 139-148).
The proposed fix sets both fields to the primary value. -/
def seqIssue (p s : Nat) : ValidationIssue :=
  { severity := IssueSeverity.Warning
    message := "Sequence numbers do not match"
    details := some ("Primary: " ++ toString p ++ ", Secondary: " ++ toString s ++
      ". This may indicate an incomplete write operation.")
    fix_type := some FixType.SequenceNumbers
    fix_data := some (FixData.SequenceNumbers p p) }

/-- The root-cell bounds issue record (main.rs lines 316-325). -/
def rootIssue (absOff size : Nat) : ValidationIssue :=
  { severity := IssueSeverity.Critical
    message := "Invalid root cell offset"
    details := some ("Absolute root cell offset (0x" ++ hexU absOff ++
      ") is outside file bounds (0x" ++ hexU size ++ ")")
    fix_type := none
    fix_data := none }

/-- The version issue record (main.rs lines 334-343). -/
def versionIssue (major minor : Nat) : ValidationIssue :=
  { severity := IssueSeverity.Warning
    message := "Unexpected version numbers"
    details := some ("Found version " ++ toString major ++ "." ++ toString minor ++
      ", expected 1.3-1.6")
    fix_type := none
    fix_data := none }

/-- The file-type issue record (main.rs lines 354-360). -/
def fileTypeIssue : ValidationIssue :=
  { severity := IssueSeverity.Warning
    message := "Unexpected file type"
    details := some "Expected primary file (0)"
    fix_type := none
    fix_data := none }

/-- The file-format issue record (main.rs lines 364-370). -/
def fileFormatIssue : ValidationIssue :=
  { severity := IssueSeverity.Warning
    message := "Unexpected file format"
    details := some "Expected direct memory load (1)"
    fix_type := none
    fix_data := none }

/-- Rule 1: signature mismatch versus "regf". -/
def ruleSignature (s : String) : List ValidationIssue :=
  if s ≠ "regf" then [signatureIssue s] else []

/-- Rule 2: stored checksum differs from the freshly computed one. -/
def ruleChecksum (d : List Nat) : List ValidationIssue :=
  if readU32 d 508 ≠ calculate_header_checksum d then
    [checksumIssue (readU32 d 508) (calculate_header_checksum d)]
  else []

/-- Rule 3: stored hive-bins size differs from file size minus the 4096
byte base offset (u32 wrapping subtraction, as in the source). -/
def ruleHiveBins (d : List Nat) : List ValidationIssue :=
  if readU32 d 40 ≠ sub32 (d.length % 4294967296) 4096 then
    [hiveBinsIssue (readU32 d 40) (sub32 (d.length % 4294967296) 4096)]
  else []

/-- Rule 4: primary and secondary sequence numbers differ. -/
def ruleSeq (d : List Nat) : List ValidationIssue :=
  if readU32 d 4 ≠ readU32 d 8 then [seqIssue (readU32 d 4) (readU32 d 8)] else []

/-- Rule 5: absolute root cell offset (u32 wrapping addition of the 4096
base) at or past the end of the file. -/
def ruleRoot (d : List Nat) : List ValidationIssue :=
  if d.length % 4294967296 ≤ add32 4096 (readU32 d 36) then
    [rootIssue (add32 4096 (readU32 d 36)) (d.length % 4294967296)]
  else []

/-- Rule 6: major version not 1 or minor version outside [3, 6]. -/
def ruleVersion (d : List Nat) : List ValidationIssue :=
  if readU32 d 20 ≠ 1 ∨ ¬(3 ≤ readU32 d 24 ∧ readU32 d 24 ≤ 6) then
    [versionIssue (readU32 d 20) (readU32 d 24)]
  else []

/-- Rule 7: file type is not 0 (primary file). -/
def ruleFileType (d : List Nat) : List ValidationIssue :=
  if readU32 d 28 ≠ 0 then [fileTypeIssue] else []

/-- Rule 8: file format is not 1 (direct memory load). -/
def ruleFileFormat (d : List Nat) : List ValidationIssue :=
  if readU32 d 32 ≠ 1 then [fileFormatIssue] else []

/-- Library analysis (registry.rs, check_registry_file): extracts all
header fields and runs the signature, checksum, hive-bins-size and
sequence-number rules, in that order, returning an AnalysisResult.
Faithfulness notes: the signature slice needs 4 bytes (a shorter mmap
panics, and a zero-length file already fails at the mmap call — both are
non-parse aborts folded into IndexPanic); the UTF-8 decode error is
propagated before any further slice, so a buffer of 4 to 511 bytes with
an undecodable signature is a ParseError; every later read is in bounds
exactly when the buffer has at least 512 bytes (the largest slice is
[508..512]), and any of those slices failing is the same panic, so they
are gated by one length test. -/
def check_registry_file (path : String) (d : List Nat) : Except CheckError AnalysisResult :=
  let file_size := d.length % 4294967296
  if 4 ≤ d.length then
    match utf8DecodeBytes (d.take 4) with
    | none => Except.error CheckError.ParseError
    | some sigChars =>
      if 512 ≤ d.length then
        let signature := String.mk sigChars
        let primary_seq_num := readU32 d 4
        let secondary_seq_num := readU32 d 8
        let last_written := readU64 d 12
        let major_version := readU32 d 20
        let minor_version := readU32 d 24
        let file_type := readU32 d 28
        let file_format := readU32 d 32
        let root_cell_offset := readU32 d 36
        let hive_bins_size := readU32 d 40
        let clustering_factor := readU32 d 44
        let stored_checksum := readU32 d 508
        let calculated_checksum := calculate_header_checksum d
        let measured_hive_bins_size := sub32 file_size 4096
        let issues :=
          (if signature ≠ "regf" then [signatureIssue signature] else []) ++
          (if stored_checksum ≠ calculated_checksum then
            [checksumIssue stored_checksum calculated_checksum] else []) ++
          (if hive_bins_size ≠ measured_hive_bins_size then
            [hiveBinsIssue hive_bins_size measured_hive_bins_size] else []) ++
          (if primary_seq_num ≠ secondary_seq_num then
            [seqIssue primary_seq_num secondary_seq_num] else [])
        Except.ok
          { issues := issues
            file_info :=
              { path := path
                size := file_size
                signature := signature
                primary_seq_num := primary_seq_num
                secondary_seq_num := secondary_seq_num
                last_written := last_written
                major_version := major_version
                minor_version := minor_version
                file_type := file_type
                file_format := file_format
                root_cell_offset := root_cell_offset
                hive_bins_size := hive_bins_size
                measured_hive_bins_size := measured_hive_bins_size
                clustering_factor := clustering_factor
                stored_checksum := stored_checksum
                calculated_checksum := calculated_checksum } }
      else Except.error CheckError.IndexPanic
  else Except.error CheckError.IndexPanic

/-- CLI analysis (main.rs, check_registry_file): the same parse gating,
followed by all eight validation rules in source order; main.rs prints
the report instead of returning it, so the model yields the issue list
that the printing loop walks. -/
def check_registry_file_main (d : List Nat) : Except CheckError (List ValidationIssue) :=
  let file_size := d.length % 4294967296
  if 4 ≤ d.length then
    match utf8DecodeBytes (d.take 4) with
    | none => Except.error CheckError.ParseError
    | some sigChars =>
      if 512 ≤ d.length then
        let signature := String.mk sigChars
        let primary_seq_num := readU32 d 4
        let secondary_seq_num := readU32 d 8
        let major_version := readU32 d 20
        let minor_version := readU32 d 24
        let file_type := readU32 d 28
        let file_format := readU32 d 32
        let root_cell_offset := readU32 d 36
        let hive_bins_size := readU32 d 40
        let stored_checksum := readU32 d 508
        let calculated_checksum := calculate_header_checksum d
        let measured_hive_bins_size := sub32 file_size 4096
        let absolute_root_offset := add32 4096 root_cell_offset
        Except.ok
          ((if signature ≠ "regf" then [signatureIssue signature] else []) ++
           (if stored_checksum ≠ calculated_checksum then
             [checksumIssue stored_checksum calculated_checksum] else []) ++
           (if hive_bins_size ≠ measured_hive_bins_size then
             [hiveBinsIssue hive_bins_size measured_hive_bins_size] else []) ++
           (if primary_seq_num ≠ secondary_seq_num then
             [seqIssue primary_seq_num secondary_seq_num] else []) ++
           (if file_size ≤ absolute_root_offset then
             [rootIssue absolute_root_offset file_size] else []) ++
           (if major_version ≠ 1 ∨ ¬(3 ≤ minor_version ∧ minor_version ≤ 6) then
             [versionIssue major_version minor_version] else []) ++
           (if file_type ≠ 0 then [fileTypeIssue] else []) ++
           (if file_format ≠ 1 then [fileFormatIssue] else []))
      else Except.error CheckError.IndexPanic
  else Except.error CheckError.IndexPanic

/-- Issue list of a successful library analysis (empty on abort). -/
def analysisIssues (path : String) (d : List Nat) : List ValidationIssue :=
  match check_registry_file path d with
  | Except.ok r => r.issues
  | Except.error _ => []

/-- Issue list of a successful CLI analysis (empty on abort). -/
def mainIssues (d : List Nat) : List ValidationIssue :=
  match check_registry_file_main d with
  | Except.ok is => is
  | Except.error _ => []

/-- Write the 4-byte little-endian value at offset 40
(registry.rs, update_hive_bins_size). -/
def update_hive_bins_size (d : List Nat) (new_size : Nat) : List Nat :=
  writeAt d 40 (le32 new_size)

/-- Write primary at offset 4 then secondary at offset 8
(registry.rs, update_sequence_numbers). -/
def update_sequence_numbers (d : List Nat) (primary secondary : Nat) : List Nat :=
  writeAt (writeAt d 4 (le32 primary)) 8 (le32 secondary)

/-- Write the 4-byte little-endian value at offset 508
(registry.rs, update_checksum). -/
def update_checksum (d : List Nat) (new_checksum : Nat) : List Nat :=
  writeAt d 508 (le32 new_checksum)

/-- Whether a fix-type and fix-data pairing is one of the two structural
arms that set needs_checksum_update in the application loop. -/
def fixIsStructural (ft : FixType) (fd : Option FixData) : Bool :=
  match ft, fd with
  | FixType.HiveBinsSize, some (FixData.HiveBinsSize _) => true
  | FixType.SequenceNumbers, some (FixData.SequenceNumbers _ _) => true
  | _, _ => false

/-- One arm of the fix-application match (gui.rs lines 166-191): returns
the mutated file and whether the arm was a structural fix; a shape
mismatch falls through to the catch-all and changes nothing. -/
def applyOneFix (file : List Nat) (ft : FixType) (fd : Option FixData) : List Nat × Bool :=
  match ft, fd with
  | FixType.HiveBinsSize, some (FixData.HiveBinsSize v) =>
      (update_hive_bins_size file v, true)
  | FixType.Checksum, some (FixData.Checksum v) =>
      (update_checksum file v, false)
  | FixType.SequenceNumbers, some (FixData.SequenceNumbers p s) =>
      (update_sequence_numbers file p s, true)
  | _, _ => (file, false)

/-- The fix-application loop (gui.rs lines 162-193): for each selected
fix type, find the first issue with that fix type and apply its fix
data; accumulate the needs_checksum_update flag.  Write errors are
outside the pure model, so the error-break path never triggers. -/
def applyFixLoop (issues : List ValidationIssue) :
    List FixType → List Nat → Bool → List Nat × Bool
  | [], file, needs => (file, needs)
  | ft :: rest, file, needs =>
    match issues.find? (fun i => i.fix_type = some ft) with
    | some issue =>
        let r := applyOneFix file ft issue.fix_data
        applyFixLoop issues rest r.1 (needs || r.2)
    | none => applyFixLoop issues rest file needs

/-- Whether some selected fix type matches an issue whose fix data makes
the loop take a structural arm (and hence set needs_checksum_update). -/
def structuralApplied (issues : List ValidationIssue) (fixes : List FixType) : Bool :=
  fixes.any fun ft =>
    match issues.find? (fun i => i.fix_type = some ft) with
    | some issue => fixIsStructural ft issue.fix_data
    | none => false

/-- On-disk outcome of one fix request: the target file bytes and the
backup file contents (none when no backup file was written). -/
structure FsState where
  file : List Nat
  backup : Option (List Nat)
deriving DecidableEq

/-- The FixSelected worker (gui.rs lines 156-220): first copy the file
to its backup path; if that fails nothing else runs; otherwise run the
fix loop and, when a structural fix set needs_checksum_update, reopen
the file, recompute the checksum over the post-fix bytes and write it at
offset 508 as the final step.  backupOk is the environment's verdict on
the fs copy call. -/
def process_fix_selected (backupOk : Bool) (file : List Nat)
    (issues : List ValidationIssue) (fixes : List FixType) : FsState :=
  if backupOk then
    let backup := file
    let r := applyFixLoop issues fixes file false
    let final := if r.2 then update_checksum r.1 (calculate_header_checksum r.1) else r.1
    { file := final, backup := some backup }
  else { file := file, backup := none }

/-- The four signature bytes of "regf". -/
def regfSig : List Nat := [114, 101, 103, 102]

/-- A 512-byte file with a valid signature, a stored checksum equal to
the calculated one, matching hive-bins size (the u32-wrapped measured
value 0xFFFFF200) and equal sequence numbers, but a root cell offset of
0 whose absolute offset 4096 lies past the 512-byte end of the file. -/
def c2buf : List Nat :=
  writeAt (writeAt (writeAt (List.replicate 512 0) 0 regfSig)
    40 [0, 242, 255, 255]) 508 [114, 151, 152, 153]

/-- A 512-byte file identical to c2buf except that its signature reads
"xxxx": its only library-analysis issue is the critical signature issue,
which carries no fix type. -/
def xxxxBuf : List Nat :=
  writeAt (writeAt (writeAt (List.replicate 512 0) 0 [120, 120, 120, 120])
    40 [0, 242, 255, 255]) 508 [120, 138, 135, 135]

/-- c2buf with the stored checksum overwritten with 0: its analysis
reports a checksum mismatch proposing the calculated value. -/
def mismBuf : List Nat := update_checksum c2buf 0

/-! Basic byte-level lemmas. -/

theorem byteAt_lt {d : List Nat} (hb : ∀ b ∈ d, b < 256) (i : Nat) : byteAt d i < 256 := by
  unfold byteAt
  rw [List.getD_eq_getElem?_getD]
  cases h : d[i]? with
  | none => simp
  | some b => simpa using hb b (List.getElem?_mem h)

theorem readU32_lt {d : List Nat} (hb : ∀ b ∈ d, b < 256) (off : Nat) :
    readU32 d off < 4294967296 := by
  have h0 := byteAt_lt hb off
  have h1 := byteAt_lt hb (off + 1)
  have h2 := byteAt_lt hb (off + 2)
  have h3 := byteAt_lt hb (off + 3)
  unfold readU32
  omega

theorem checksumRaw_lt {d : List Nat} (hb : ∀ b ∈ d, b < 256) :
    checksumRaw d < 4294967296 := by
  have key : ∀ (l : List Nat) (acc : Nat), acc < 4294967296 →
      l.foldl (fun acc j => Nat.xor acc (readU32 d (4 * j))) acc < 4294967296 := by
    intro l
    induction l with
    | nil => intro acc h; simpa using h
    | cons x xs ih =>
        intro acc h
        simp only [List.foldl_cons]
        apply ih
        have hx : readU32 d (4 * x) < 4294967296 := readU32_lt hb _
        have h32 : (4294967296 : Nat) = 2 ^ 32 := by norm_num
        rw [h32] at h hx ⊢
        exact Nat.xor_lt_two_pow h hx
  exact key _ 0 (by norm_num)

theorem calculate_header_checksum_lt {d : List Nat} (hb : ∀ b ∈ d, b < 256) :
    calculate_header_checksum d < 4294967296 := by
  unfold calculate_header_checksum
  have := checksumRaw_lt hb
  split
  · norm_num
  · split
    · norm_num
    · simpa using this

/-! The checksum engine never yields a reserved value. -/

theorem calculate_header_checksum_ne_zero (d : List Nat) :
    calculate_header_checksum d ≠ 0 ∧ calculate_header_checksum d ≠ 4294967295 := by
  unfold calculate_header_checksum
  split
  · omega
  · split
    · omega
    · omega

/-! Write-operation lemmas. -/

theorem writeAt_eq_of_le {d : List Nat} {off : Nat} (v : List Nat) (h : off ≤ d.length) :
    writeAt d off v = d.take off ++ v ++ d.drop (off + v.length) := by
  unfold writeAt
  have : off - d.length = 0 := by omega
  simp [this]

theorem length_writeAt {d v : List Nat} {off : Nat} (h : off + v.length ≤ d.length) :
    (writeAt d off v).length = d.length := by
  rw [writeAt_eq_of_le v (by omega)]
  simp
  omega

theorem getElem?_writeAt {d v : List Nat} {off : Nat} (h : off ≤ d.length) (i : Nat) :
    (writeAt d off v)[i]? =
      if i < off then d[i]?
      else if i < off + v.length then v[i - off]?
      else d[i]? := by
  rw [writeAt_eq_of_le v h, List.append_assoc]
  have hlt : (d.take off).length = off := by rw [List.length_take]; omega
  by_cases h1 : i < off
  · rw [List.getElem?_append_left (by omega), List.getElem?_take, if_pos h1, if_pos h1]
  · rw [List.getElem?_append_right (by omega), hlt, if_neg h1]
    by_cases h2 : i < off + v.length
    · rw [List.getElem?_append_left (by omega), if_pos h2]
    · rw [List.getElem?_append_right (by omega), List.getElem?_drop, if_neg h2]
      have : off + v.length + (i - off - v.length) = i := by omega
      rw [this]

theorem byteAt_writeAt {d v : List Nat} {off : Nat} (h : off ≤ d.length) (i : Nat) :
    byteAt (writeAt d off v) i =
      if i < off then byteAt d i
      else if i < off + v.length then byteAt v (i - off)
      else byteAt d i := by
  unfold byteAt
  rw [List.getD_eq_getElem?_getD, getElem?_writeAt h]
  by_cases h1 : i < off
  · rw [if_pos h1, if_pos h1, List.getD_eq_getElem?_getD]
  · rw [if_neg h1, if_neg h1]
    by_cases h2 : i < off + v.length
    · rw [if_pos h2, if_pos h2, List.getD_eq_getElem?_getD]
    · rw [if_neg h2, if_neg h2, List.getD_eq_getElem?_getD]

theorem bytes_writeAt {d v : List Nat} {off : Nat} (hd : ∀ b ∈ d, b < 256)
    (hv : ∀ b ∈ v, b < 256) : ∀ b ∈ writeAt d off v, b < 256 := by
  intro b hbmem
  unfold writeAt at hbmem
  simp only [List.mem_append] at hbmem
  rcases hbmem with ((hb | hb) | hb) | hb
  · exact hd b (List.take_subset _ _ hb)
  · rw [List.eq_of_mem_replicate hb]; norm_num
  · exact hv b hb
  · exact hd b (List.drop_subset _ _ hb)

theorem le32_bytes (v : Nat) : ∀ b ∈ le32 v, b < 256 := by
  intro b hb
  simp only [le32, List.mem_cons, List.not_mem_nil, or_false] at hb
  rcases hb with h | h | h | h <;> subst h <;> omega

theorem readU32_writeAt_le32 {d : List Nat} {off : Nat} (h : off + 4 ≤ d.length) (v : Nat) :
    readU32 (writeAt d off (le32 v)) off = v % 4294967296 := by
  unfold readU32
  rw [byteAt_writeAt (by omega), byteAt_writeAt (by omega), byteAt_writeAt (by omega),
    byteAt_writeAt (by omega)]
  simp only [le32, List.length_cons, List.length_nil]
  rw [if_neg (by omega), if_pos (by omega), if_neg (by omega), if_pos (by omega),
    if_neg (by omega), if_pos (by omega), if_neg (by omega), if_pos (by omega)]
  have e0 : off - off = 0 := by omega
  have e1 : off + 1 - off = 1 := by omega
  have e2 : off + 2 - off = 2 := by omega
  have e3 : off + 3 - off = 3 := by omega
  rw [e0, e1, e2, e3]
  simp only [le32, byteAt, List.getD_cons_zero, List.getD_cons_succ]
  omega

/-! Checksum congruence and stability under the 508-offset write. -/

theorem natXor_assoc (a b c : Nat) : Nat.xor (Nat.xor a b) c = Nat.xor a (Nat.xor b c) :=
  Nat.xor_assoc a b c

theorem natXor_zero (a : Nat) : Nat.xor a 0 = a := Nat.xor_zero a

theorem natZero_xor (a : Nat) : Nat.xor 0 a = a := Nat.zero_xor a

theorem foldl_xor_eq_foldr (f : Nat → Nat) (l : List Nat) :
    ∀ acc, l.foldl (fun a j => Nat.xor a (f j)) acc = Nat.xor acc ((l.map f).foldr Nat.xor 0) := by
  induction l with
  | nil => intro acc; simp only [List.foldl_nil, List.map_nil, List.foldr_nil, natXor_zero]
  | cons x xs ih =>
      intro acc
      simp only [List.foldl_cons, List.map_cons, List.foldr_cons]
      rw [ih, natXor_assoc]

theorem checksumRaw_eq_spec (d : List Nat) : checksumRaw d = specRawXor d := by
  unfold checksumRaw specRawXor
  rw [foldl_xor_eq_foldr, natZero_xor]

theorem checksumRaw_congr {d1 d2 : List Nat} (h : ∀ i < 508, byteAt d1 i = byteAt d2 i) :
    checksumRaw d1 = checksumRaw d2 := by
  unfold checksumRaw
  have key : ∀ (l : List Nat), (∀ j ∈ l, j < 127) → ∀ acc : Nat,
      l.foldl (fun a j => Nat.xor a (readU32 d1 (4 * j))) acc =
        l.foldl (fun a j => Nat.xor a (readU32 d2 (4 * j))) acc := by
    intro l
    induction l with
    | nil => intro _ acc; rfl
    | cons x xs ih =>
        intro hmem acc
        have hx : x < 127 := hmem x (List.mem_cons_self x xs)
        have hword : readU32 d1 (4 * x) = readU32 d2 (4 * x) := by
          unfold readU32
          rw [h (4 * x) (by omega), h (4 * x + 1) (by omega), h (4 * x + 2) (by omega),
            h (4 * x + 3) (by omega)]
        simp only [List.foldl_cons]
        rw [hword]
        exact ih (fun j hj => hmem j (List.mem_cons_of_mem x hj)) _
  exact key _ (fun j hj => List.mem_range.mp hj) 0

theorem calc_congr {d1 d2 : List Nat} (h : ∀ i < 508, byteAt d1 i = byteAt d2 i) :
    calculate_header_checksum d1 = calculate_header_checksum d2 := by
  unfold calculate_header_checksum
  rw [checksumRaw_congr h]

theorem calc_update_checksum {d : List Nat} (h : 512 ≤ d.length) (v : Nat) :
    calculate_header_checksum (update_checksum d v) = calculate_header_checksum d := by
  apply calc_congr
  intro i hi
  unfold update_checksum
  rw [byteAt_writeAt (by omega), if_pos hi]

theorem length_update_checksum {d : List Nat} (h : 512 ≤ d.length) (v : Nat) :
    (update_checksum d v).length = d.length := by
  unfold update_checksum
  exact length_writeAt (by simp [le32]; omega)

theorem length_update_hive_bins_size {d : List Nat} (h : 512 ≤ d.length) (v : Nat) :
    (update_hive_bins_size d v).length = d.length := by
  unfold update_hive_bins_size
  exact length_writeAt (by simp [le32]; omega)

theorem length_update_sequence_numbers {d : List Nat} (h : 512 ≤ d.length) (p s : Nat) :
    (update_sequence_numbers d p s).length = d.length := by
  unfold update_sequence_numbers
  have h1 : (writeAt d 4 (le32 p)).length = d.length := length_writeAt (by simp [le32]; omega)
  rw [length_writeAt (by rw [h1]; simp only [le32, List.length_cons, List.length_nil]; omega), h1]

theorem readU32_update_checksum {d : List Nat} (h : 512 ≤ d.length) (v : Nat) :
    readU32 (update_checksum d v) 508 = v % 4294967296 := by
  unfold update_checksum
  exact readU32_writeAt_le32 (by omega) v

theorem take4_update_checksum {d : List Nat} (h : 512 ≤ d.length) (v : Nat) :
    (update_checksum d v).take 4 = d.take 4 := by
  unfold update_checksum writeAt
  have h0 : (508 : Nat) - d.length = 0 := by omega
  rw [h0]
  simp only [List.replicate_zero, List.append_nil]
  rw [List.take_append_of_le_length (by simp [le32, List.length_take]),
    List.take_append_of_le_length (by rw [List.length_take]; omega), List.take_take]
  norm_num

theorem bytes_update_checksum {d : List Nat} (hd : ∀ b ∈ d, b < 256) (v : Nat) :
    ∀ b ∈ update_checksum d v, b < 256 := by
  unfold update_checksum
  exact bytes_writeAt hd (le32_bytes v)

theorem bytes_update_hive_bins_size {d : List Nat} (hd : ∀ b ∈ d, b < 256) (v : Nat) :
    ∀ b ∈ update_hive_bins_size d v, b < 256 := by
  unfold update_hive_bins_size
  exact bytes_writeAt hd (le32_bytes v)

theorem bytes_update_sequence_numbers {d : List Nat} (hd : ∀ b ∈ d, b < 256) (p s : Nat) :
    ∀ b ∈ update_sequence_numbers d p s, b < 256 := by
  unfold update_sequence_numbers
  exact bytes_writeAt (bytes_writeAt hd (le32_bytes p)) (le32_bytes s)

/-- C1: for every byte buffer of length at least 508, the computed
header checksum equals the XOR of the 127 32-bit little-endian words at
byte offsets 0, 4, ..., 504, post-processed so that a raw XOR of
0xFFFFFFFF yields 0xFFFFFFFE and a raw XOR of 0 yields 1, and every
other raw XOR value is returned unchanged. -/
theorem checksum_spec_refinement (d : List Nat) (_h : 508 ≤ d.length) :
    calculate_header_checksum d = specHeaderChecksum d := by
  unfold calculate_header_checksum specHeaderChecksum
  rw [checksumRaw_eq_spec]

/-- Witness for C1 at the all-zero 512-byte buffer, whose raw XOR is 0
and whose checksum is therefore 1 on both sides. -/
theorem checksum_spec_refinement_case :
    508 ≤ (List.replicate 512 0).length ∧
      calculate_header_checksum (List.replicate 512 0) =
        specHeaderChecksum (List.replicate 512 0) :=
  ⟨by simp, checksum_spec_refinement _ (by simp)⟩

/-! Shape of the two analysis functions on each control path. -/

theorem check_short4 (path : String) {d : List Nat} (h : ¬ 4 ≤ d.length) :
    check_registry_file path d = Except.error CheckError.IndexPanic := by
  unfold check_registry_file
  rw [if_neg h]

theorem check_parse_fail (path : String) {d : List Nat} (h : 4 ≤ d.length)
    (hu : utf8DecodeBytes (d.take 4) = none) :
    check_registry_file path d = Except.error CheckError.ParseError := by
  unfold check_registry_file
  rw [if_pos h, hu]

theorem check_short512 (path : String) {d : List Nat} {cs : List Char} (h : 4 ≤ d.length)
    (hu : utf8DecodeBytes (d.take 4) = some cs) (h5 : ¬ 512 ≤ d.length) :
    check_registry_file path d = Except.error CheckError.IndexPanic := by
  unfold check_registry_file
  rw [if_pos h, hu]
  exact if_neg h5

theorem check_registry_eq (path : String) {d : List Nat} {cs : List Char}
    (h512 : 512 ≤ d.length) (hsig : utf8DecodeBytes (d.take 4) = some cs) :
    check_registry_file path d = Except.ok
      { issues := ruleSignature (String.mk cs) ++ ruleChecksum d ++ ruleHiveBins d ++ ruleSeq d
        file_info :=
          { path := path
            size := d.length % 4294967296
            signature := String.mk cs
            primary_seq_num := readU32 d 4
            secondary_seq_num := readU32 d 8
            last_written := readU64 d 12
            major_version := readU32 d 20
            minor_version := readU32 d 24
            file_type := readU32 d 28
            file_format := readU32 d 32
            root_cell_offset := readU32 d 36
            hive_bins_size := readU32 d 40
            measured_hive_bins_size := sub32 (d.length % 4294967296) 4096
            clustering_factor := readU32 d 44
            stored_checksum := readU32 d 508
            calculated_checksum := calculate_header_checksum d } } := by
  unfold check_registry_file
  rw [if_pos (show 4 ≤ d.length by omega), hsig]
  dsimp only
  rw [if_pos h512]
  rfl

theorem analysisIssues_eq (path : String) {d : List Nat} {cs : List Char}
    (h512 : 512 ≤ d.length) (hsig : utf8DecodeBytes (d.take 4) = some cs) :
    analysisIssues path d =
      ruleSignature (String.mk cs) ++ ruleChecksum d ++ ruleHiveBins d ++ ruleSeq d := by
  unfold analysisIssues
  rw [check_registry_eq path h512 hsig]

theorem check_main_short4 {d : List Nat} (h : ¬ 4 ≤ d.length) :
    check_registry_file_main d = Except.error CheckError.IndexPanic := by
  unfold check_registry_file_main
  rw [if_neg h]

theorem check_main_parse_fail {d : List Nat} (h : 4 ≤ d.length)
    (hu : utf8DecodeBytes (d.take 4) = none) :
    check_registry_file_main d = Except.error CheckError.ParseError := by
  unfold check_registry_file_main
  rw [if_pos h, hu]

theorem check_main_short512 {d : List Nat} {cs : List Char} (h : 4 ≤ d.length)
    (hu : utf8DecodeBytes (d.take 4) = some cs) (h5 : ¬ 512 ≤ d.length) :
    check_registry_file_main d = Except.error CheckError.IndexPanic := by
  unfold check_registry_file_main
  rw [if_pos h, hu]
  exact if_neg h5

theorem check_main_eq {d : List Nat} {cs : List Char}
    (h512 : 512 ≤ d.length) (hsig : utf8DecodeBytes (d.take 4) = some cs) :
    check_registry_file_main d = Except.ok
      (ruleSignature (String.mk cs) ++ ruleChecksum d ++ ruleHiveBins d ++ ruleSeq d ++
        ruleRoot d ++ ruleVersion d ++ ruleFileType d ++ ruleFileFormat d) := by
  unfold check_registry_file_main
  rw [if_pos (show 4 ≤ d.length by omega), hsig]
  dsimp only
  rw [if_pos h512]
  rfl

theorem mainIssues_eq {d : List Nat} {cs : List Char}
    (h512 : 512 ≤ d.length) (hsig : utf8DecodeBytes (d.take 4) = some cs) :
    mainIssues d =
      ruleSignature (String.mk cs) ++ ruleChecksum d ++ ruleHiveBins d ++ ruleSeq d ++
        ruleRoot d ++ ruleVersion d ++ ruleFileType d ++ ruleFileFormat d := by
  unfold mainIssues
  rw [check_main_eq h512 hsig]

/-! Concrete evaluations shared by several results. -/

theorem c2buf_issues : analysisIssues "f" c2buf = [] := by decide

theorem mem_ite_singleton {α : Type} {c : Prop} [Decidable c] {a b : α} :
    (a ∈ if c then [b] else []) ↔ (c ∧ a = b) := by
  by_cases h : c
  · simp [h]
  · simp [h]

/-- C3 counterexample: a 100-byte all-zero buffer is shorter than 512
bytes, yet the analysis aborts with an out-of-bounds panic rather than
returning a ParseError. -/
theorem short_buffer_panic_not_parse :
    (List.replicate 100 0).length < 512 ∧
      check_registry_file "f" (List.replicate 100 0) = Except.error CheckError.IndexPanic ∧
      CheckError.IndexPanic ≠ CheckError.ParseError := by
  refine ⟨by simp, ?_, by decide⟩
  decide

/-- C3 (amended): the analysis yields a ParseError exactly when the
buffer has at least 4 bytes and the 4 signature bytes are not valid
UTF-8; it returns a complete result exactly when the buffer has at least
512 bytes and the signature bytes decode (a buffer shorter than 512
bytes with a decodable or absent signature aborts by an out-of-bounds
panic instead, and no partial result is produced on any abort). -/
theorem parse_failure_characterization (path : String) (d : List Nat) :
    ((check_registry_file path d = Except.error CheckError.ParseError) ↔
      (4 ≤ d.length ∧ utf8DecodeBytes (d.take 4) = none)) ∧
    ((∃ r, check_registry_file path d = Except.ok r) ↔
      (512 ≤ d.length ∧ ∃ cs, utf8DecodeBytes (d.take 4) = some cs)) := by
  by_cases h4 : 4 ≤ d.length
  · cases hu : utf8DecodeBytes (d.take 4) with
    | none =>
        rw [check_parse_fail path h4 hu]
        constructor
        · simp [h4]
        · simp
    | some cs =>
        by_cases h5 : 512 ≤ d.length
        · rw [check_registry_eq path h5 hu]
          constructor
          · simp
          · simp [h5]
        · rw [check_short512 path h4 hu h5]
          constructor
          · simp [h4]
          · simp [h5]
  · rw [check_short4 path h4]
    constructor
    · simp [h4]
    · simp [show ¬ 512 ≤ d.length by omega]

/-- C2 counterexample: at c2buf the library analysis returns an empty
issue list although the eight-rule battery fires the root-cell rule, so
the returned report does not consist of all eight rules' output in rule
order. -/
theorem eight_rules_claim_false :
    ¬ (analysisIssues "f" c2buf =
      ruleSignature (String.mk ['r', 'e', 'g', 'f']) ++ ruleChecksum c2buf ++
        ruleHiveBins c2buf ++ ruleSeq c2buf ++ ruleRoot c2buf ++ ruleVersion c2buf ++
        ruleFileType c2buf ++ ruleFileFormat c2buf) := by
  intro h
  rw [c2buf_issues] at h
  have hr : ruleRoot c2buf = [rootIssue 4096 512] := by decide
  have hlen := congrArg List.length h
  simp only [List.length_append, hr, List.length_nil, List.length_cons] at hlen
  omega

/-- C2 (amended): under a successful parse, the CLI analysis reports
exactly the eight rules' issues in rule order with no rule
short-circuiting another, while the library analysis — the one whose
report is returned to callers — runs only the first four rules
(signature, checksum, hive-bins-size, sequence-numbers), in that
order. -/
theorem validator_rule_order (path : String) (d : List Nat) (cs : List Char)
    (h512 : 512 ≤ d.length) (hsig : utf8DecodeBytes (d.take 4) = some cs) :
    check_registry_file_main d = Except.ok
      (ruleSignature (String.mk cs) ++ ruleChecksum d ++ ruleHiveBins d ++ ruleSeq d ++
        ruleRoot d ++ ruleVersion d ++ ruleFileType d ++ ruleFileFormat d) ∧
    (check_registry_file path d).map AnalysisResult.issues = Except.ok
      (ruleSignature (String.mk cs) ++ ruleChecksum d ++ ruleHiveBins d ++ ruleSeq d) :=
  ⟨check_main_eq h512 hsig, by rw [check_registry_eq path h512 hsig]; rfl⟩

/-- Witness for C2 at c2buf. -/
theorem validator_rule_order_case :
    512 ≤ c2buf.length ∧ utf8DecodeBytes (c2buf.take 4) = some ['r', 'e', 'g', 'f'] ∧
      (check_registry_file "f" c2buf).map AnalysisResult.issues = Except.ok
        (ruleSignature (String.mk ['r', 'e', 'g', 'f']) ++ ruleChecksum c2buf ++
          ruleHiveBins c2buf ++ ruleSeq c2buf) :=
  ⟨by decide, by decide,
    (validator_rule_order "f" c2buf ['r', 'e', 'g', 'f'] (by decide) (by decide)).2⟩

/-! Distinctness of issue records needed to pin down membership. -/

theorem signatureIssue_message_length (str : String) :
    (signatureIssue str).message.length = 44 + str.length := by
  simp only [signatureIssue]
  rw [String.length_append, String.length_append]
  have h2 : ("Invalid signature: expected \x27regf\x27, found \x27" : String).length = 43 := by
    decide
  have h3 : ("\x27" : String).length = 1 := by decide
  rw [h2, h3]
  omega

theorem rootIssue_ne_signatureIssue (a s : Nat) (str : String) :
    rootIssue a s ≠ signatureIssue str := by
  intro h
  have hm := congrArg (fun i => i.message.length) h
  simp only at hm
  rw [signatureIssue_message_length] at hm
  have h1 : (rootIssue a s).message.length = 24 := by
    simp only [rootIssue]
    decide
  omega

theorem rootIssue_ne_checksumIssue (a s x y : Nat) : rootIssue a s ≠ checksumIssue x y := by
  intro h
  have hf := congrArg ValidationIssue.fix_type h
  simp [rootIssue, checksumIssue] at hf

theorem rootIssue_ne_hiveBinsIssue (a s x y : Nat) : rootIssue a s ≠ hiveBinsIssue x y := by
  intro h
  have hf := congrArg ValidationIssue.severity h
  simp [rootIssue, hiveBinsIssue] at hf

theorem rootIssue_ne_seqIssue (a s x y : Nat) : rootIssue a s ≠ seqIssue x y := by
  intro h
  have hf := congrArg ValidationIssue.severity h
  simp [rootIssue, seqIssue] at hf

theorem rootIssue_ne_versionIssue (a s x y : Nat) : rootIssue a s ≠ versionIssue x y := by
  intro h
  have hf := congrArg ValidationIssue.severity h
  simp [rootIssue, versionIssue] at hf

theorem rootIssue_ne_fileTypeIssue (a s : Nat) : rootIssue a s ≠ fileTypeIssue := by
  intro h
  have hf := congrArg ValidationIssue.severity h
  simp [rootIssue, fileTypeIssue] at hf

theorem rootIssue_ne_fileFormatIssue (a s : Nat) : rootIssue a s ≠ fileFormatIssue := by
  intro h
  have hf := congrArg ValidationIssue.severity h
  simp [rootIssue, fileFormatIssue] at hf

/-- C4 counterexample: at c2buf the bound condition 4096 +
root_cell_offset at or past file size holds, yet the library analysis
reports no issue at all, in particular no critical root-cell issue. -/
theorem root_check_absent_in_library :
    c2buf.length % 4294967296 ≤ add32 4096 (readU32 c2buf 36) ∧
      analysisIssues "f" c2buf = [] :=
  ⟨by decide, c2buf_issues⟩

/-- C4 (amended): the CLI analysis reports the Critical, non-fixable
root-cell issue exactly when (4096 + root_cell_offset) computed in u32
arithmetic is at or past the file size (equality counts as out of
bounds); the library analysis performs no root-cell check and never
reports such an issue. -/
theorem root_cell_bounds_check (path : String) (d : List Nat) (cs : List Char)
    (h512 : 512 ≤ d.length) (hsig : utf8DecodeBytes (d.take 4) = some cs) :
    ((rootIssue (add32 4096 (readU32 d 36)) (d.length % 4294967296) ∈ mainIssues d) ↔
      d.length % 4294967296 ≤ add32 4096 (readU32 d 36)) ∧
    (rootIssue (add32 4096 (readU32 d 36)) (d.length % 4294967296)).severity =
      IssueSeverity.Critical ∧
    (rootIssue (add32 4096 (readU32 d 36)) (d.length % 4294967296)).fix_type = none ∧
    (∀ i ∈ analysisIssues path d, i.message ≠ "Invalid root cell offset") := by
  refine ⟨?_, rfl, rfl, ?_⟩
  · rw [mainIssues_eq h512 hsig]
    simp only [ruleSignature, ruleChecksum, ruleHiveBins, ruleSeq, ruleRoot, ruleVersion,
      ruleFileType, ruleFileFormat]
    constructor
    · intro hmem
      simp only [List.mem_append] at hmem
      rcases hmem with ((((((h1 | h2) | h3) | h4) | h5) | h6) | h7) | h8
      · exact absurd (mem_ite_singleton.mp h1).2 (rootIssue_ne_signatureIssue _ _ _)
      · exact absurd (mem_ite_singleton.mp h2).2 (rootIssue_ne_checksumIssue _ _ _ _)
      · exact absurd (mem_ite_singleton.mp h3).2 (rootIssue_ne_hiveBinsIssue _ _ _ _)
      · exact absurd (mem_ite_singleton.mp h4).2 (rootIssue_ne_seqIssue _ _ _ _)
      · exact (mem_ite_singleton.mp h5).1
      · exact absurd (mem_ite_singleton.mp h6).2 (rootIssue_ne_versionIssue _ _ _ _)
      · exact absurd (mem_ite_singleton.mp h7).2 (rootIssue_ne_fileTypeIssue _ _)
      · exact absurd (mem_ite_singleton.mp h8).2 (rootIssue_ne_fileFormatIssue _ _)
    · intro hc
      simp only [List.mem_append]
      exact Or.inl (Or.inl (Or.inl (Or.inr (mem_ite_singleton.mpr ⟨hc, rfl⟩))))
  · intro i hi
    rw [analysisIssues_eq path h512 hsig] at hi
    simp only [ruleSignature, ruleChecksum, ruleHiveBins, ruleSeq, List.mem_append] at hi
    rcases hi with ((h1 | h2) | h3) | h4
    · rw [(mem_ite_singleton.mp h1).2]
      intro hm
      have hl := congrArg String.length hm
      rw [signatureIssue_message_length] at hl
      have h24 : ("Invalid root cell offset" : String).length = 24 := by decide
      omega
    · rw [(mem_ite_singleton.mp h2).2]
      simp only [checksumIssue]
      decide
    · rw [(mem_ite_singleton.mp h3).2]
      simp only [hiveBinsIssue]
      decide
    · rw [(mem_ite_singleton.mp h4).2]
      simp only [seqIssue]
      decide

/-- Witness for C4 at c2buf: the bound condition holds there and the
CLI analysis reports the critical root-cell issue. -/
theorem root_cell_bounds_check_case :
    512 ≤ c2buf.length ∧ utf8DecodeBytes (c2buf.take 4) = some ['r', 'e', 'g', 'f'] ∧
      rootIssue (add32 4096 (readU32 c2buf 36)) (c2buf.length % 4294967296) ∈
        mainIssues c2buf :=
  ⟨by decide, by decide,
    (root_cell_bounds_check "f" c2buf ['r', 'e', 'g', 'f'] (by decide) (by decide)).1.mpr
      (by decide)⟩

/-! Distinctness lemmas for the hive-bins issue. -/

theorem hiveBinsIssue_ne_signatureIssue (x y : Nat) (str : String) :
    hiveBinsIssue x y ≠ signatureIssue str := by
  intro h
  have hf := congrArg ValidationIssue.severity h
  simp [hiveBinsIssue, signatureIssue] at hf

theorem hiveBinsIssue_ne_checksumIssue (x y a b : Nat) :
    hiveBinsIssue x y ≠ checksumIssue a b := by
  intro h
  have hf := congrArg ValidationIssue.severity h
  simp [hiveBinsIssue, checksumIssue] at hf

theorem hiveBinsIssue_ne_seqIssue (x y a b : Nat) : hiveBinsIssue x y ≠ seqIssue a b := by
  intro h
  have hf := congrArg ValidationIssue.fix_type h
  simp [hiveBinsIssue, seqIssue] at hf

/-- C5: in the library analysis the measured hive-bins size equals the
total file size minus 4096 in u32 arithmetic; the Warning issue carrying
FixType HiveBinsSize with the measured value as fix data is reported
exactly when the stored size differs from the measured size; in
particular a file of exactly 4096 + hive_bins_size bytes reports no
hive-bins-size issue while a file one byte shorter or longer does. -/
theorem hive_bins_size_check (path : String) (d : List Nat) (cs : List Char)
    (h512 : 512 ≤ d.length) (hb : ∀ b ∈ d, b < 256)
    (hsig : utf8DecodeBytes (d.take 4) = some cs) :
    (check_registry_file path d).map (fun r => r.file_info.measured_hive_bins_size) =
      Except.ok (sub32 (d.length % 4294967296) 4096) ∧
    ((hiveBinsIssue (readU32 d 40) (sub32 (d.length % 4294967296) 4096) ∈
        analysisIssues path d) ↔
      readU32 d 40 ≠ sub32 (d.length % 4294967296) 4096) ∧
    (hiveBinsIssue (readU32 d 40) (sub32 (d.length % 4294967296) 4096)).severity =
      IssueSeverity.Warning ∧
    (hiveBinsIssue (readU32 d 40) (sub32 (d.length % 4294967296) 4096)).fix_type =
      some FixType.HiveBinsSize ∧
    (hiveBinsIssue (readU32 d 40) (sub32 (d.length % 4294967296) 4096)).fix_data =
      some (FixData.HiveBinsSize (sub32 (d.length % 4294967296) 4096)) ∧
    (d.length = 4096 + readU32 d 40 →
      hiveBinsIssue (readU32 d 40) (sub32 (d.length % 4294967296) 4096) ∉
        analysisIssues path d) ∧
    (d.length + 1 = 4096 + readU32 d 40 →
      hiveBinsIssue (readU32 d 40) (sub32 (d.length % 4294967296) 4096) ∈
        analysisIssues path d) ∧
    (d.length = 4096 + readU32 d 40 + 1 →
      hiveBinsIssue (readU32 d 40) (sub32 (d.length % 4294967296) 4096) ∈
        analysisIssues path d) := by
  have hH := readU32_lt hb 40
  have hiff : (hiveBinsIssue (readU32 d 40) (sub32 (d.length % 4294967296) 4096) ∈
      analysisIssues path d) ↔
      readU32 d 40 ≠ sub32 (d.length % 4294967296) 4096 := by
    rw [analysisIssues_eq path h512 hsig]
    simp only [ruleSignature, ruleChecksum, ruleHiveBins, ruleSeq, List.mem_append]
    constructor
    · rintro (((h1 | h2) | h3) | h4)
      · exact absurd (mem_ite_singleton.mp h1).2 (hiveBinsIssue_ne_signatureIssue _ _ _)
      · exact absurd (mem_ite_singleton.mp h2).2 (hiveBinsIssue_ne_checksumIssue _ _ _ _)
      · exact (mem_ite_singleton.mp h3).1
      · exact absurd (mem_ite_singleton.mp h4).2 (hiveBinsIssue_ne_seqIssue _ _ _ _)
    · intro hc
      exact Or.inl (Or.inr (mem_ite_singleton.mpr ⟨hc, rfl⟩))
  refine ⟨by rw [check_registry_eq path h512 hsig]; rfl, hiff, rfl, rfl, rfl, ?_, ?_, ?_⟩
  · intro hlen hmem
    exact hiff.mp hmem (by unfold sub32; omega)
  · intro hlen
    exact hiff.mpr (by unfold sub32; omega)
  · intro hlen
    exact hiff.mpr (by unfold sub32; omega)

/-- Witness for C5 at c2buf, whose stored hive-bins size equals the
u32-wrapped measured value, so no hive-bins issue is reported. -/
theorem hive_bins_size_check_case :
    512 ≤ c2buf.length ∧ (∀ b ∈ c2buf, b < 256) ∧
      utf8DecodeBytes (c2buf.take 4) = some ['r', 'e', 'g', 'f'] ∧
      (check_registry_file "f" c2buf).map (fun r => r.file_info.measured_hive_bins_size) =
        Except.ok (sub32 (c2buf.length % 4294967296) 4096) :=
  ⟨by decide, by decide, by decide,
    (hive_bins_size_check "f" c2buf ['r', 'e', 'g', 'f'] (by decide) (by decide)
      (by decide)).1⟩

/-! Fix-application loop lemmas. -/

theorem applyOneFix_flag (file : List Nat) (ft : FixType) (fd : Option FixData) :
    (applyOneFix file ft fd).2 = fixIsStructural ft fd := by
  cases ft <;> rcases fd with _ | (v | v | ⟨p, s⟩) <;> rfl

theorem applyFixLoop_flag (issues : List ValidationIssue) (fixes : List FixType) :
    ∀ (file : List Nat) (needs : Bool),
      (applyFixLoop issues fixes file needs).2 = (needs || structuralApplied issues fixes) := by
  induction fixes with
  | nil =>
      intro file needs
      simp [applyFixLoop, structuralApplied]
  | cons ft rest ih =>
      intro file needs
      unfold applyFixLoop
      cases hf : issues.find? (fun i => i.fix_type = some ft) with
      | none =>
          rw [ih]
          unfold structuralApplied
          simp only [List.any_cons, hf]
          rw [Bool.false_or]
      | some issue =>
          rw [ih, applyOneFix_flag]
          unfold structuralApplied
          simp only [List.any_cons, hf]
          rw [Bool.or_assoc]

theorem applyFixLoop_length (issues : List ValidationIssue) (fixes : List FixType) :
    ∀ (file : List Nat) (needs : Bool), 512 ≤ file.length →
      (applyFixLoop issues fixes file needs).1.length = file.length := by
  induction fixes with
  | nil => intro file needs _; rfl
  | cons ft rest ih =>
      intro file needs h
      unfold applyFixLoop
      cases hf : issues.find? (fun i => i.fix_type = some ft) with
      | none => exact ih file needs h
      | some issue =>
          have hlen : (applyOneFix file ft issue.fix_data).1.length = file.length := by
            unfold applyOneFix
            cases ft <;> rcases issue.fix_data with _ | (v | v | ⟨p, s⟩) <;>
              first
                | rfl
                | exact length_update_hive_bins_size h _
                | exact length_update_checksum h _
                | exact length_update_sequence_numbers h _ _
          rw [ih _ _ (by rw [hlen]; exact h), hlen]

theorem applyFixLoop_bytes (issues : List ValidationIssue) (fixes : List FixType) :
    ∀ (file : List Nat) (needs : Bool), (∀ b ∈ file, b < 256) →
      ∀ b ∈ (applyFixLoop issues fixes file needs).1, b < 256 := by
  induction fixes with
  | nil => intro file needs hb; exact hb
  | cons ft rest ih =>
      intro file needs hb
      unfold applyFixLoop
      cases hf : issues.find? (fun i => i.fix_type = some ft) with
      | none => exact ih file needs hb
      | some issue =>
          apply ih
          unfold applyOneFix
          cases ft <;> rcases issue.fix_data with _ | (v | v | ⟨p, s⟩) <;>
            first
              | exact hb
              | exact bytes_update_hive_bins_size hb _
              | exact bytes_update_checksum hb _
              | exact bytes_update_sequence_numbers hb _ _

theorem applyFixLoop_no_match (issues : List ValidationIssue) (fixes : List FixType)
    (h : ∀ ft ∈ fixes, issues.find? (fun i => i.fix_type = some ft) = none) :
    ∀ (file : List Nat) (needs : Bool), applyFixLoop issues fixes file needs = (file, needs) := by
  induction fixes with
  | nil => intro _ _; rfl
  | cons ft rest ih =>
      intro file needs
      unfold applyFixLoop
      rw [h ft (List.mem_cons_self ft rest)]
      exact ih (fun f hf => h f (List.mem_cons_of_mem _ hf)) file needs

theorem process_true_eq (file : List Nat) (issues : List ValidationIssue)
    (fixes : List FixType) :
    process_fix_selected true file issues fixes =
      { file :=
          if (applyFixLoop issues fixes file false).2 then
            update_checksum (applyFixLoop issues fixes file false).1
              (calculate_header_checksum (applyFixLoop issues fixes file false).1)
          else (applyFixLoop issues fixes file false).1
        backup := some file } := rfl

/-- C7: for every fix request, the backup written before any fix write
is a verbatim copy of the pre-fix file bytes, and when the backup copy
fails the whole operation aborts: the target file is unchanged and no
fix write is attempted. -/
theorem backup_before_writes (file : List Nat) (issues : List ValidationIssue)
    (fixes : List FixType) :
    (process_fix_selected true file issues fixes).backup = some file ∧
    (process_fix_selected false file issues fixes).file = file ∧
    (process_fix_selected false file issues fixes).backup = none :=
  ⟨rfl, rfl, rfl⟩

/-- C6: the needs_checksum_update flag is set exactly when a structural
fix (HiveBinsSize or SequenceNumbers) is applied; in that case the final
write rewrites offset 508 with the checksum recomputed over the post-fix
bytes (so the stored checksum of the resulting file equals its
calculated checksum), regardless of whether a Checksum fix was also
selected; when no structural fix is applied (for example a run applying
only a Checksum fix), no such extra recomputation happens and the file
is exactly the loop output. -/
theorem structural_fix_checksum_rewrite (file : List Nat) (issues : List ValidationIssue)
    (fixes : List FixType) (h512 : 512 ≤ file.length) (hb : ∀ b ∈ file, b < 256) :
    ((applyFixLoop issues fixes file false).2 = structuralApplied issues fixes) ∧
    (structuralApplied issues fixes = true →
      (process_fix_selected true file issues fixes).file =
        update_checksum (applyFixLoop issues fixes file false).1
          (calculate_header_checksum (applyFixLoop issues fixes file false).1) ∧
      readU32 (process_fix_selected true file issues fixes).file 508 =
        calculate_header_checksum (process_fix_selected true file issues fixes).file) ∧
    (structuralApplied issues fixes = false →
      (process_fix_selected true file issues fixes).file =
        (applyFixLoop issues fixes file false).1) := by
  have hflag := applyFixLoop_flag issues fixes file false
  rw [Bool.false_or] at hflag
  have hlen := applyFixLoop_length issues fixes file false h512
  have hbytes := applyFixLoop_bytes issues fixes file false hb
  have hlen512 : 512 ≤ (applyFixLoop issues fixes file false).1.length := by omega
  refine ⟨hflag, ?_, ?_⟩
  · intro hs
    have hneeds : (applyFixLoop issues fixes file false).2 = true := by rw [hflag, hs]
    have hfile : (process_fix_selected true file issues fixes).file =
        update_checksum (applyFixLoop issues fixes file false).1
          (calculate_header_checksum (applyFixLoop issues fixes file false).1) := by
      rw [process_true_eq, hneeds]
      rfl
    refine ⟨hfile, ?_⟩
    rw [hfile, readU32_update_checksum hlen512, calc_update_checksum hlen512]
    exact Nat.mod_eq_of_lt (calculate_header_checksum_lt hbytes)
  · intro hs
    have hneeds : (applyFixLoop issues fixes file false).2 = false := by rw [hflag, hs]
    rw [process_true_eq, hneeds]
    rfl

/-- Witness for C6: a structural HiveBinsSize fix on c2buf ends with the
stored checksum equal to the checksum of the post-fix bytes. -/
theorem structural_fix_checksum_rewrite_case :
    512 ≤ c2buf.length ∧ (∀ b ∈ c2buf, b < 256) ∧
      structuralApplied [hiveBinsIssue 0 4294963712] [FixType.HiveBinsSize] = true ∧
      readU32 (process_fix_selected true c2buf [hiveBinsIssue 0 4294963712]
          [FixType.HiveBinsSize]).file 508 =
        calculate_header_checksum (process_fix_selected true c2buf
          [hiveBinsIssue 0 4294963712] [FixType.HiveBinsSize]).file :=
  ⟨by decide, by decide, by decide,
    ((structural_fix_checksum_rewrite c2buf [hiveBinsIssue 0 4294963712]
      [FixType.HiveBinsSize] (by decide) (by decide)).2.1 (by decide)).2⟩

/-! The no-matching-issue behaviour of the fix worker. -/

theorem xxxxBuf_issues : analysisIssues "f" xxxxBuf = [signatureIssue "xxxx"] := by decide

/-- C9 counterexample: for the signature-"xxxx" file, whose single
Critical issue carries no fix type, requesting all three fix types
leaves the target file untouched and every fix skipped, but the backup
file is still written to disk before the loop runs — so the run is not
free of disk writes. -/
theorem noop_claim_backup_written :
    analysisIssues "f" xxxxBuf = [signatureIssue "xxxx"] ∧
    (signatureIssue "xxxx").fix_type = none ∧
    process_fix_selected true xxxxBuf [signatureIssue "xxxx"]
      [FixType.HiveBinsSize, FixType.Checksum, FixType.SequenceNumbers] =
      { file := xxxxBuf, backup := some xxxxBuf } ∧
    (some xxxxBuf ≠ (none : Option (List Nat))) :=
  ⟨xxxxBuf_issues, rfl, by decide, by simp⟩

/-- C9 (amended): when no issue in the analysis carries a fix type
matching any selected fix type, every selected fix is silently skipped
and the target file bytes are unchanged, but the verbatim backup copy is
still created at the backup path before the (empty) fix loop runs. -/
theorem unmatched_fixes_skip (file : List Nat) (issues : List ValidationIssue)
    (fixes : List FixType)
    (h : ∀ i ∈ issues, ∀ ft ∈ fixes, i.fix_type ≠ some ft) :
    (process_fix_selected true file issues fixes).file = file ∧
    (process_fix_selected true file issues fixes).backup = some file := by
  have hfind : ∀ ft ∈ fixes, issues.find? (fun i => i.fix_type = some ft) = none := by
    intro ft hft
    rw [List.find?_eq_none]
    intro i hi
    simp only [decide_eq_true_eq]
    exact h i hi ft hft
  have hloop := applyFixLoop_no_match issues fixes hfind file false
  rw [process_true_eq, hloop]
  exact ⟨rfl, rfl⟩

/-- Witness for C9: a Checksum fix request against the xxxx-signature
analysis is skipped, the target is unchanged and the backup is the
pre-fix bytes. -/
theorem unmatched_fixes_skip_case :
    (∀ i ∈ [signatureIssue "xxxx"], ∀ ft ∈ [FixType.Checksum], i.fix_type ≠ some ft) ∧
    (process_fix_selected true xxxxBuf [signatureIssue "xxxx"] [FixType.Checksum]).file =
      xxxxBuf ∧
    (process_fix_selected true xxxxBuf [signatureIssue "xxxx"] [FixType.Checksum]).backup =
      some xxxxBuf :=
  ⟨by decide, (unmatched_fixes_skip xxxxBuf _ _ (by decide)).1,
    (unmatched_fixes_skip xxxxBuf _ _ (by decide)).2⟩

/-! Round trip of the checksum fix. -/

theorem ruleSignature_find_checksum (s : String) :
    (ruleSignature s).find? (fun i => i.fix_type = some FixType.Checksum) = none := by
  unfold ruleSignature
  split <;> rfl

/-- C8: when the analysis of a file reports the checksum-mismatch issue,
running the fix worker with the Checksum fix selected writes exactly the
calculated value at offset 508; re-analysing the resulting file reports
no checksum issue, because the stored checksum now equals the freshly
calculated one (offset 508 lies outside the checksummed range). -/
theorem checksum_fix_roundtrip (path : String) (d : List Nat) (cs : List Char)
    (h512 : 512 ≤ d.length) (hb : ∀ b ∈ d, b < 256)
    (hsig : utf8DecodeBytes (d.take 4) = some cs)
    (hmis : readU32 d 508 ≠ calculate_header_checksum d) :
    checksumIssue (readU32 d 508) (calculate_header_checksum d) ∈ analysisIssues path d ∧
    (process_fix_selected true d (analysisIssues path d) [FixType.Checksum]).file =
      update_checksum d (calculate_header_checksum d) ∧
    (∀ i ∈ analysisIssues path
        (process_fix_selected true d (analysisIssues path d) [FixType.Checksum]).file,
      i.fix_type ≠ some FixType.Checksum) ∧
    readU32 (process_fix_selected true d (analysisIssues path d) [FixType.Checksum]).file
        508 =
      calculate_header_checksum
        (process_fix_selected true d (analysisIssues path d) [FixType.Checksum]).file := by
  have hdec := analysisIssues_eq path h512 hsig
  have hrc : ruleChecksum d =
      [checksumIssue (readU32 d 508) (calculate_header_checksum d)] := by
    unfold ruleChecksum
    rw [if_pos hmis]
  have hfind : (analysisIssues path d).find? (fun i => i.fix_type = some FixType.Checksum) =
      some (checksumIssue (readU32 d 508) (calculate_header_checksum d)) := by
    rw [hdec, List.find?_append, List.find?_append, List.find?_append,
      ruleSignature_find_checksum, hrc]
    rfl
  have hloop : applyFixLoop (analysisIssues path d) [FixType.Checksum] d false =
      (update_checksum d (calculate_header_checksum d), false) := by
    unfold applyFixLoop
    rw [hfind]
    rfl
  have hf2 : (process_fix_selected true d (analysisIssues path d) [FixType.Checksum]).file =
      update_checksum d (calculate_header_checksum d) := by
    rw [process_true_eq, hloop]
    rfl
  have hlen2 : 512 ≤ (update_checksum d (calculate_header_checksum d)).length := by
    rw [length_update_checksum h512]
    exact h512
  have hsig2 : utf8DecodeBytes ((update_checksum d (calculate_header_checksum d)).take 4) =
      some cs := by
    rw [take4_update_checksum h512]
    exact hsig
  have hcalc2 : calculate_header_checksum (update_checksum d (calculate_header_checksum d)) =
      calculate_header_checksum d := calc_update_checksum h512 _
  have hstored2 : readU32 (update_checksum d (calculate_header_checksum d)) 508 =
      calculate_header_checksum d := by
    rw [readU32_update_checksum h512]
    exact Nat.mod_eq_of_lt (calculate_header_checksum_lt hb)
  refine ⟨?_, hf2, ?_, ?_⟩
  · rw [hdec]
    simp only [List.mem_append]
    exact Or.inl (Or.inl (Or.inr (by rw [hrc]; exact List.mem_singleton.mpr rfl)))
  · intro i hi
    rw [hf2, analysisIssues_eq path hlen2 hsig2] at hi
    have hrc2 : ruleChecksum (update_checksum d (calculate_header_checksum d)) = [] := by
      unfold ruleChecksum
      rw [if_neg (by rw [hstored2, hcalc2]; exact fun hne => hne rfl)]
    rw [hrc2] at hi
    simp only [ruleSignature, ruleHiveBins, ruleSeq, List.mem_append, List.append_nil,
      List.not_mem_nil, or_false, false_or] at hi
    rcases hi with (h1 | h3) | h4
    · rw [(mem_ite_singleton.mp h1).2]
      simp [signatureIssue]
    · rw [(mem_ite_singleton.mp h3).2]
      simp [hiveBinsIssue]
    · rw [(mem_ite_singleton.mp h4).2]
      simp [seqIssue]
  · rw [hf2, hstored2, hcalc2]

/-- Witness for C8 at mismBuf, whose stored checksum 0 disagrees with
the calculated value; after the Checksum fix the stored and calculated
checksums agree. -/
theorem checksum_fix_roundtrip_case :
    512 ≤ mismBuf.length ∧ (∀ b ∈ mismBuf, b < 256) ∧
      utf8DecodeBytes (mismBuf.take 4) = some ['r', 'e', 'g', 'f'] ∧
      readU32 mismBuf 508 ≠ calculate_header_checksum mismBuf ∧
      readU32 (process_fix_selected true mismBuf (analysisIssues "f" mismBuf)
          [FixType.Checksum]).file 508 =
        calculate_header_checksum (process_fix_selected true mismBuf
          (analysisIssues "f" mismBuf) [FixType.Checksum]).file := by
  have hmis : readU32 mismBuf 508 ≠ calculate_header_checksum mismBuf := by decide
  exact ⟨by decide, by decide, by decide, hmis,
    (checksum_fix_roundtrip "f" mismBuf ['r', 'e', 'g', 'f'] (by decide) (by decide)
      (by decide) hmis).2.2.2⟩

/-! Reserved checksum values never escape the engine. -/

theorem analysisIssues_short4 (path : String) {d : List Nat} (h : ¬ 4 ≤ d.length) :
    analysisIssues path d = [] := by
  unfold analysisIssues
  rw [check_short4 path h]

theorem analysisIssues_parse_fail (path : String) {d : List Nat} (h : 4 ≤ d.length)
    (hu : utf8DecodeBytes (d.take 4) = none) : analysisIssues path d = [] := by
  unfold analysisIssues
  rw [check_parse_fail path h hu]

theorem analysisIssues_short512 (path : String) {d : List Nat} {cs : List Char}
    (h : 4 ≤ d.length) (hu : utf8DecodeBytes (d.take 4) = some cs)
    (h5 : ¬ 512 ≤ d.length) : analysisIssues path d = [] := by
  unfold analysisIssues
  rw [check_short512 path h hu h5]

/-- C10: the computed header checksum of any buffer of at least 508
bytes is neither 0 nor 0xFFFFFFFF; consequently the checksum value the
analysis proposes as fix data is neither reserved value, and the value
rewritten at offset 508 after a structural fix is neither reserved
value. -/
theorem checksum_reserved_values :
    (∀ d : List Nat, 508 ≤ d.length →
      calculate_header_checksum d ≠ 0 ∧ calculate_header_checksum d ≠ 4294967295) ∧
    (∀ (path : String) (d : List Nat) (i : ValidationIssue) (v : Nat),
      i ∈ analysisIssues path d → i.fix_data = some (FixData.Checksum v) →
      v ≠ 0 ∧ v ≠ 4294967295) ∧
    (∀ (file : List Nat) (issues : List ValidationIssue) (fixes : List FixType),
      512 ≤ file.length → (∀ b ∈ file, b < 256) →
      structuralApplied issues fixes = true →
      readU32 (process_fix_selected true file issues fixes).file 508 ≠ 0 ∧
      readU32 (process_fix_selected true file issues fixes).file 508 ≠ 4294967295) := by
  refine ⟨fun d _ => calculate_header_checksum_ne_zero d, ?_, ?_⟩
  · intro path d i v hmem hfd
    by_cases h4 : 4 ≤ d.length
    · cases hu : utf8DecodeBytes (d.take 4) with
      | none =>
          rw [analysisIssues_parse_fail path h4 hu] at hmem
          cases hmem
      | some cs =>
          by_cases h5 : 512 ≤ d.length
          · rw [analysisIssues_eq path h5 hu] at hmem
            simp only [ruleSignature, ruleChecksum, ruleHiveBins, ruleSeq,
              List.mem_append] at hmem
            rcases hmem with (((h1 | h2) | h3) | hs4)
            · rw [(mem_ite_singleton.mp h1).2] at hfd
              simp [signatureIssue] at hfd
            · rw [(mem_ite_singleton.mp h2).2] at hfd
              simp only [checksumIssue, Option.some.injEq, FixData.Checksum.injEq] at hfd
              rw [← hfd]
              exact calculate_header_checksum_ne_zero d
            · rw [(mem_ite_singleton.mp h3).2] at hfd
              simp [hiveBinsIssue] at hfd
            · rw [(mem_ite_singleton.mp hs4).2] at hfd
              simp [seqIssue] at hfd
          · rw [analysisIssues_short512 path h4 hu h5] at hmem
            cases hmem
    · rw [analysisIssues_short4 path h4] at hmem
      cases hmem
  · intro file issues fixes h512 hb hs
    have hflag := applyFixLoop_flag issues fixes file false
    rw [Bool.false_or, hs] at hflag
    have hlen512 : 512 ≤ (applyFixLoop issues fixes file false).1.length := by
      rw [applyFixLoop_length issues fixes file false h512]
      exact h512
    have hbytes := applyFixLoop_bytes issues fixes file false hb
    have hfile : (process_fix_selected true file issues fixes).file =
        update_checksum (applyFixLoop issues fixes file false).1
          (calculate_header_checksum (applyFixLoop issues fixes file false).1) := by
      rw [process_true_eq, hflag]
      rfl
    rw [hfile, readU32_update_checksum hlen512,
      Nat.mod_eq_of_lt (calculate_header_checksum_lt hbytes)]
    exact calculate_header_checksum_ne_zero _

/-- Witness for C10 at the all-zero 512-byte buffer, whose checksum is
the substituted value 1. -/
theorem checksum_reserved_values_case :
    508 ≤ (List.replicate 512 0).length ∧
      calculate_header_checksum (List.replicate 512 0) ≠ 0 :=
  ⟨by simp, (checksum_reserved_values.1 (List.replicate 512 0) (by simp)).1⟩

/-- Witness for C3: a 600-byte zero-filled buffer parses successfully. -/
theorem parse_failure_characterization_case :
    ∃ r, check_registry_file "f" (List.replicate 600 0) = Except.ok r :=
  (parse_failure_characterization "f" (List.replicate 600 0)).2.mpr
    ⟨by simp, ⟨[Char.ofNat 0, Char.ofNat 0, Char.ofNat 0, Char.ofNat 0], by decide⟩⟩

/-- Witness for C7: with no fixes requested on c2buf, the backup still
holds a verbatim copy of the pre-fix bytes. -/
theorem backup_before_writes_case :
    (process_fix_selected true c2buf [] []).backup = some c2buf :=
  (backup_before_writes c2buf [] []).1

end RegFix
